import Mathlib

/-!
Shallow embedding of `src/main.py` (HyUploader): a script that downloads
selected files from a HyperDeck SD card over HTTP and uploads them to a
Google Drive folder chosen interactively.

Interactive console input is modelled as an explicit list of input events;
network and filesystem effects are modelled as explicit oracle parameters.
Python values that may be `None` are modelled as `Option`; a Python function
that may either return a value or let an exception escape is modelled with
`PyResult`.
-/

/-- Result of running a Python function: either a returned value, or an
uncaught exception propagating to the caller (carrying its message). -/
inductive PyResult (α : Type) where
  | ok  : α → PyResult α
  | exc : String → PyResult α
deriving DecidableEq, Repr

/-- A mounted volume as returned by `GET /mounts/` (`mount['name']`). -/
structure Volume where
  name : String
deriving DecidableEq, Repr

/-- A file entry as returned by `GET /mounts/<sd>/`: `file_info['name']`,
`file_info['type']`, and the optional `file_info.get('size', 0)` field. -/
structure RemoteFile where
  name : String
  type : String
  size : Option Nat
deriving DecidableEq, Repr

/-- A Drive folder as returned by `list_subfolders` (`files(id, name)`). -/
structure Folder where
  id   : String
  name : String
deriving DecidableEq, Repr

/-- `get_mounted_media` (main.py:27-39): issues `GET /mounts/`; the oracle
`resp` is the outcome of `requests.get` + `raise_for_status` + `.json()`.
On a `RequestException` the error is printed and `[]` is returned. -/
def get_mounted_media (resp : Except String (List Volume)) : List Volume :=
  match resp with
  | .ok mounts => mounts
  | .error _ => []

/-- `list_files_on_sd_card` (main.py:41-53): issues `GET /mounts/<sd>/`;
same failure policy as `get_mounted_media`. -/
def list_files_on_sd_card (sdCardName : String)
    (resp : Except String (List RemoteFile)) : List RemoteFile :=
  match resp with
  | .ok files => files
  | .error _ => []

/-- `os.path.join(a, b)` for one relative or absolute component, POSIX
semantics as used at main.py:61. -/
def pathJoin (a b : String) : String :=
  if b.data.head? = some '/' then b
  else if a = "" then b
  else if a.data.getLast? = some '/' then a ++ b
  else a ++ "/" ++ b

instance {ε α : Type} [DecidableEq ε] [DecidableEq α] : DecidableEq (Except ε α) := by
  intro a b
  cases a <;> cases b
  case error.error x y =>
    exact if h : x = y then .isTrue (by rw [h]) else .isFalse (by simp [h])
  case ok.ok x y =>
    exact if h : x = y then .isTrue (by rw [h]) else .isFalse (by simp [h])
  case error.ok x y => exact .isFalse (by simp)
  case ok.error x y => exact .isFalse (by simp)

/-- Effect environment for one run of `download_file_from_sd_card`:
* `getRes`: outcome of `requests.get(url, stream=True)` + `raise_for_status`
  (error = `RequestException`, which the function catches);
* `chunks`: the byte chunks delivered by `iter_content` before the stream
  ends or fails (bytes as `Nat`);
* `midErr`: `some msg` if `iter_content` raises a `RequestException` after
  delivering `chunks`;
* `openRes`: outcome of `open(local_filename, 'wb')` (error = `OSError`,
  which is NOT a `RequestException`). Writes and `os.path.getsize` are
  modelled as succeeding, with the on-disk size equal to the bytes written. -/
structure DlEnv where
  getRes  : Except String Unit
  chunks  : List (List Nat)
  midErr  : Option String
  openRes : Except String Unit
deriving DecidableEq, Repr

/-- Observable outcome of `download_file_from_sd_card`:
* `result`: the Python return value (`some path` on success, `none` after a
  caught `RequestException`) or an uncaught exception;
* `warned`: whether the size-mismatch WARNING line (main.py:79-80) printed;
* `written`: the bytes left in the local file, `none` if it was never opened. -/
structure DlOutcome where
  result  : PyResult (Option String)
  warned  : Bool
  written : Option (List Nat)
deriving DecidableEq, Repr

/-- `download_file_from_sd_card` (main.py:55-85). The body writes every
non-empty chunk (`if chunk:`), then compares `os.path.getsize` with
`total_size = file_info.get('size', 0)` and warns on a nonzero mismatch;
only `requests.exceptions.RequestException` is caught (returning `None`);
an `OSError` from `open` escapes the function. -/
def download_file_from_sd_card (downloadDir : String) (sdCardName : String)
    (fileInfo : RemoteFile) (env : DlEnv) : DlOutcome :=
  let localFilename := pathJoin downloadDir fileInfo.name
  let totalSize := fileInfo.size.getD 0
  match env.getRes with
  | .error _ => ⟨.ok none, false, none⟩
  | .ok () =>
    match env.openRes with
    | .error e => ⟨.exc e, false, none⟩
    | .ok () =>
      let content := (env.chunks.filter (fun c => !c.isEmpty)).flatten
      match env.midErr with
      | some _ => ⟨.ok none, false, some content⟩
      | none =>
        let actualSize := content.length
        ⟨.ok (some localFilename),
         decide (totalSize ≠ 0 ∧ actualSize ≠ totalSize),
         some content⟩

/-- Filtering out the empty chunks (`if chunk:` at main.py:74) does not
change the bytes written. -/
theorem flatten_filter_ne_nil (l : List (List Nat)) :
    (l.filter (fun c => !c.isEmpty)).flatten = l.flatten := by
  induction l with
  | nil => rfl
  | cons c rest ih =>
    cases c with
    | nil => simpa [List.filter_cons] using ih
    | cons b bs => simp [List.filter_cons, ih]

/-- Observable actions of the per-file transfer loop (main.py:301-307):
a download attempt on a named file, or an upload attempt on a local path. -/
inductive Event where
  | download : String → Event
  | upload   : String → Event
deriving DecidableEq, Repr

/-- The per-file loop of `automate_process` (main.py:301-307), parametrised
by `dl`, the behaviour of `download_file_from_sd_card` on each file (its
returned value, or an uncaught exception that aborts the whole loop).
For each entry: only `type == 'file'` entries are processed; a download is
attempted; if its result `local_file` is truthy, an upload is attempted
(`upload_file_to_drive` catches all its own exceptions, so it only
contributes an attempt event). -/
def transferLoop (dl : RemoteFile → PyResult (Option String)) :
    List RemoteFile → PyResult (List Event)
  | [] => .ok []
  | f :: rest =>
    if f.type = "file" then
      match dl f with
      | .exc e => .exc e
      | .ok localFile =>
        let evs := Event.download f.name ::
          (match localFile with
           | some p => if p = "" then [] else [Event.upload p]
           | none => [])
        match transferLoop dl rest with
        | .ok tail => .ok (evs ++ tail)
        | .exc e => .exc e
    else transferLoop dl rest

/-- C1: in the per-file transfer loop, entries whose `type` is not `"file"`
are skipped with no download and no upload attempted: the loop's whole
behaviour equals its behaviour on the sublist of `type == "file"` entries. -/
theorem transferLoop_skips_nonfile (dl : RemoteFile → PyResult (Option String))
    (files : List RemoteFile) :
    transferLoop dl files =
      transferLoop dl (files.filter (fun f => f.type == "file")) := by
  induction files with
  | nil => rfl
  | cons f rest ih =>
    by_cases h : f.type = "file" <;>
      simp [transferLoop, List.filter_cons, h, ih]

/-- C5: if a `type == "file"` entry's download returns the failure signal
`None`, no upload is attempted for it — only its download-attempt event is
recorded — and the loop continues with the remaining files. -/
theorem transferLoop_download_failure (dl : RemoteFile → PyResult (Option String))
    (f : RemoteFile) (rest : List RemoteFile)
    (hty : f.type = "file") (hdl : dl f = .ok none) :
    transferLoop dl (f :: rest) =
      match transferLoop dl rest with
      | .ok tail => .ok (Event.download f.name :: tail)
      | .exc e => .exc e := by
  simp [transferLoop, hty, hdl]

/-- Witness for C5 at a concrete input: a failing download of `A.mp4`
followed by a failing download of `B.mp4` yields exactly the two
download-attempt events and no upload events. -/
theorem transferLoop_download_failure_witness :
    transferLoop (fun _ => .ok none)
        [⟨"A.mp4", "file", some 500⟩, ⟨"B.mp4", "file", none⟩] =
      .ok [Event.download "A.mp4", Event.download "B.mp4"] := by
  rw [transferLoop_download_failure (fun _ => .ok none)
    ⟨"A.mp4", "file", some 500⟩ [⟨"B.mp4", "file", none⟩] rfl rfl]
  rfl

/-- C3 (amended): `download_file_from_sd_card` returns the local path when
the request, the local open and the whole stream succeed; it returns the
failure signal `None` on any network error (a `RequestException` at
connection time or mid-stream); but an IO error opening the local file is
not caught and propagates as an uncaught exception. -/
theorem download_result_characterisation (dir sd : String) (fi : RemoteFile)
    (env : DlEnv) :
    (∀ e, env.getRes = .error e →
      (download_file_from_sd_card dir sd fi env).result = .ok none)
    ∧ (∀ e, env.getRes = .ok () → env.openRes = .ok () → env.midErr = some e →
      (download_file_from_sd_card dir sd fi env).result = .ok none)
    ∧ (env.getRes = .ok () → env.openRes = .ok () → env.midErr = none →
      (download_file_from_sd_card dir sd fi env).result =
        .ok (some (pathJoin dir fi.name)))
    ∧ (∀ e, env.getRes = .ok () → env.openRes = .error e →
      (download_file_from_sd_card dir sd fi env).result = .exc e) := by
  obtain ⟨g, ch, m, o⟩ := env
  refine ⟨?_, ?_, ?_, ?_⟩
  · intro e hg
    simp only at hg
    subst hg
    rfl
  · intro e hg ho hm
    simp only at hg ho hm
    subst hg; subst ho; subst hm
    rfl
  · intro hg ho hm
    simp only at hg ho hm
    subst hg; subst ho; subst hm
    rfl
  · intro e hg ho
    simp only at hg ho
    subst hg; subst ho
    rfl

/-- Witness for C3 (amended) at concrete inputs: a connection failure and a
mid-stream failure both return `None`, and a fully successful run returns
the joined local path. -/
theorem download_result_characterisation_witness :
    (download_file_from_sd_card "dl" "sd1" ⟨"A.mp4", "file", some 4⟩
        ⟨.error "timeout", [], none, .ok ()⟩).result = .ok none
    ∧ (download_file_from_sd_card "dl" "sd1" ⟨"A.mp4", "file", some 4⟩
        ⟨.ok (), [[1, 2]], some "reset", .ok ()⟩).result = .ok none
    ∧ (download_file_from_sd_card "dl" "sd1" ⟨"A.mp4", "file", some 2⟩
        ⟨.ok (), [[1, 2]], none, .ok ()⟩).result = .ok (some "dl/A.mp4") :=
  ⟨(download_result_characterisation "dl" "sd1" ⟨"A.mp4", "file", some 4⟩
      ⟨.error "timeout", [], none, .ok ()⟩).1 "timeout" rfl,
   (download_result_characterisation "dl" "sd1" ⟨"A.mp4", "file", some 4⟩
      ⟨.ok (), [[1, 2]], some "reset", .ok ()⟩).2.1 "reset" rfl rfl rfl,
   by
    have h := (download_result_characterisation "dl" "sd1" ⟨"A.mp4", "file", some 2⟩
      ⟨.ok (), [[1, 2]], none, .ok ()⟩).2.2.1 rfl rfl rfl
    rw [h]; decide⟩

/-- C3 counterexample: on an IO error (`open` raising `OSError`, e.g. a
permission failure) the function does NOT return the failure signal `None`;
the exception escapes and aborts the whole run. -/
theorem download_io_error_not_none :
    (download_file_from_sd_card "dl" "sd1" ⟨"A.mp4", "file", some 4⟩
        ⟨.ok (), [], none, .error "PermissionError"⟩).result
      = .exc "PermissionError"
    ∧ (download_file_from_sd_card "dl" "sd1" ⟨"A.mp4", "file", some 4⟩
        ⟨.ok (), [], none, .error "PermissionError"⟩).result
      ≠ .ok none := by
  exact ⟨rfl, by decide⟩

/-- C4: on a completed download, the size-mismatch warning is emitted if and
only if the reported size (`file_info.get('size', 0)`) is nonzero and
differs from the number of bytes on disk, and in every completed case the
function still returns the local path. -/
theorem download_warns_iff_size_mismatch (dir sd : String) (fi : RemoteFile)
    (env : DlEnv) (h1 : env.getRes = .ok ()) (h2 : env.openRes = .ok ())
    (h3 : env.midErr = none) :
    ((download_file_from_sd_card dir sd fi env).warned = true ↔
      fi.size.getD 0 ≠ 0 ∧ env.chunks.flatten.length ≠ fi.size.getD 0)
    ∧ (download_file_from_sd_card dir sd fi env).result =
        .ok (some (pathJoin dir fi.name)) := by
  obtain ⟨g, ch, m, o⟩ := env
  simp only at h1 h2 h3
  subst h1; subst h2; subst h3
  constructor
  · have hw : (download_file_from_sd_card dir sd fi ⟨.ok (), ch, none, .ok ()⟩).warned
        = decide (fi.size.getD 0 ≠ 0 ∧
            (ch.filter (fun c => !c.isEmpty)).flatten.length ≠ fi.size.getD 0) := rfl
    rw [hw, flatten_filter_ne_nil]
    simp
  · rfl

/-- Witness for C4 at a concrete input: reported size 5, bytes written 3 —
the warning fires and the local path is still returned. -/
theorem download_warns_iff_size_mismatch_witness :
    (download_file_from_sd_card "d" "sd1" ⟨"A.mp4", "file", some 5⟩
        ⟨.ok (), [[1, 2, 3]], none, .ok ()⟩).warned = true
    ∧ (download_file_from_sd_card "d" "sd1" ⟨"A.mp4", "file", some 5⟩
        ⟨.ok (), [[1, 2, 3]], none, .ok ()⟩).result = .ok (some "d/A.mp4") :=
  ⟨(download_warns_iff_size_mismatch "d" "sd1" ⟨"A.mp4", "file", some 5⟩
      ⟨.ok (), [[1, 2, 3]], none, .ok ()⟩ rfl rfl rfl).1.mpr (by decide),
   by
    have h := (download_warns_iff_size_mismatch "d" "sd1" ⟨"A.mp4", "file", some 5⟩
      ⟨.ok (), [[1, 2, 3]], none, .ok ()⟩ rfl rfl rfl).2
    rw [h]; decide⟩

/-- One user interaction with the navigation menu (main.py:183-187): either
input that makes `int()` raise `ValueError`, or a parsed numeric choice `n`
together with the name the user would type if the new-folder prompt
(main.py:200) were reached on that iteration. -/
inductive NavInput where
  | invalid : NavInput
  | num : Int → String → NavInput

/-- Outcome of one iteration of the `navigate_and_select_folder` loop body:
continue with a (possibly updated) `current_folder_id`, or return it. -/
inductive NavStep where
  | cont : Option String → NavStep
  | ret  : Option String → NavStep
deriving DecidableEq, Repr

/-- One iteration of the `while True` body of `navigate_and_select_folder`
(main.py:169-208). `subs` is the subfolder listing for the current folder;
`createF` is the behaviour of `create_drive_folder` (returning
`folder.get('id')`, or `None` on a caught exception); `cur` is
`current_folder_id` (an `os.getenv` value, hence possibly `None`). The
branches mirror main.py:190-208, including the Python truthiness test
`if new_folder_id:` (false for `None` and for the empty string). -/
def navStep (subs : List Folder) (createF : String → Option String → Option String)
    (cur : Option String) : NavInput → NavStep
  | .invalid => .cont cur
  | .num n name =>
    if h : 1 ≤ n ∧ n ≤ (subs.length : Int) then
      .cont (some (subs.get ⟨(n - 1).toNat, by omega⟩).id)
    else if n = (subs.length : Int) + 1 then
      .ret cur
    else if n = (subs.length : Int) + 2 then
      .cont (match createF name cur with
             | some newId => if newId = "" then cur else some newId
             | none => cur)
    else .cont cur

/-- `navigate_and_select_folder` (main.py:163-208) run on a finite list of
user inputs: `some r` if the loop returned `r` within the given inputs,
`none` if it consumed them all without returning. `listSub` is the
behaviour of `list_subfolders` as a function of the current folder id. -/
def navRun (listSub : Option String → List Folder)
    (createF : String → Option String → Option String) :
    Option String → List NavInput → Option (Option String)
  | _, [] => none
  | cur, i :: rest =>
    match navStep (listSub cur) createF cur i with
    | .ret r => some r
    | .cont c => navRun listSub createF c rest

/-- C2: an iteration of the navigation loop returns to the caller exactly
on the "Upload here" choice (index = number of listed children + 1), and
then it returns the current folder id unchanged; no other choice
terminates the loop. -/
theorem navStep_returns_only_upload_here (subs : List Folder)
    (createF : String → Option String → Option String) (cur : Option String) :
    (∀ inp r, navStep subs createF cur inp = .ret r →
      (∃ nm, inp = .num ((subs.length : Int) + 1) nm) ∧ r = cur)
    ∧ (∀ nm, navStep subs createF cur (.num ((subs.length : Int) + 1) nm)
        = .ret cur) := by
  constructor
  · intro inp r h
    cases inp with
    | invalid => exact absurd h (by simp [navStep])
    | num n name =>
      simp only [navStep] at h
      split at h
      · exact absurd h (by simp)
      · split at h
        · rename_i hn2
          injection h with h2
          exact ⟨⟨name, by rw [hn2]⟩, h2.symm⟩
        · split at h
          · exact absurd h (by simp)
          · exact absurd h (by simp)
  · intro nm
    have hno : ¬(1 ≤ (subs.length : Int) + 1 ∧
        (subs.length : Int) + 1 ≤ (subs.length : Int)) := by omega
    simp [navStep, hno]

/-- C6: on the "Create new folder" choice (index = children + 2) the loop
never terminates: on a successful creation the cursor becomes the new
folder's id, and on a failed creation (`None`, or a falsy id) the cursor is
unchanged; in every case the loop continues. -/
theorem navStep_create_folder (subs : List Folder)
    (createF : String → Option String → Option String) (cur : Option String)
    (nm : String) :
    (∀ newId, createF nm cur = some newId → newId ≠ "" →
      navStep subs createF cur (.num ((subs.length : Int) + 2) nm)
        = .cont (some newId))
    ∧ (createF nm cur = none →
      navStep subs createF cur (.num ((subs.length : Int) + 2) nm) = .cont cur)
    ∧ (createF nm cur = some "" →
      navStep subs createF cur (.num ((subs.length : Int) + 2) nm) = .cont cur)
    ∧ (∀ r, navStep subs createF cur (.num ((subs.length : Int) + 2) nm)
        ≠ .ret r) := by
  have hno : ¬(1 ≤ (subs.length : Int) + 2 ∧
      (subs.length : Int) + 2 ≤ (subs.length : Int)) := by omega
  have hne : (subs.length : Int) + 2 ≠ (subs.length : Int) + 1 := by omega
  refine ⟨?_, ?_, ?_, ?_⟩
  · intro newId hc hne2
    simp [navStep, hno, hne, hc, hne2]
  · intro hc
    simp [navStep, hno, hne, hc]
  · intro hc
    simp [navStep, hno, hne, hc]
  · intro r
    simp only [navStep]
    rw [dif_neg hno, if_neg hne]
    simp

/-- Witness for C6 at a concrete input: with no children listed, choice 2
is "Create new folder"; a successful creation moves the cursor to the new
folder id and the loop continues. -/
theorem navStep_create_folder_witness :
    navStep [] (fun nm _ => some (String.append "id-" nm)) (some "root")
        (.num 2 "clips") = .cont (some (String.append "id-" "clips")) :=
  (navStep_create_folder [] (fun nm _ => some (String.append "id-" nm))
    (some "root") "clips").1 (String.append "id-" "clips") rfl (by decide)

/-- Python truthiness of a string-or-`None` value (`if not target:`):
truthy means not `None` and not the empty string. -/
def pyTruthy (v : Option String) : Prop := ∃ s, v = some s ∧ s ≠ ""

/-- Every iteration of the navigation loop keeps the cursor truthy,
provided every listed subfolder has a non-empty id (the created-folder
branch checks truthiness itself at main.py:202). -/
theorem navStep_preserves_truthy (subs : List Folder)
    (createF : String → Option String → Option String) (cur : Option String)
    (inp : NavInput) (hids : ∀ f ∈ subs, f.id ≠ "") (hcur : pyTruthy cur) :
    (∀ c, navStep subs createF cur inp = .cont c → pyTruthy c)
    ∧ (∀ r, navStep subs createF cur inp = .ret r → pyTruthy r) := by
  cases inp with
  | invalid =>
    constructor
    · intro c hc
      injection hc with h
      rwa [← h]
    · intro r hr
      exact absurd hr (by simp [navStep])
  | num n name =>
    constructor
    · intro c hc
      simp only [navStep] at hc
      split at hc
      · injection hc with h
        rw [← h]
        exact ⟨_, rfl, hids _ (subs.get_mem _ _)⟩
      · split at hc
        · exact absurd hc (by simp)
        · split at hc
          · injection hc with h
            rw [← h]
            cases hcf : createF name cur with
            | none => simpa [hcf] using hcur
            | some newId =>
              by_cases hni : newId = ""
              · simpa [hcf, hni] using hcur
              · simp only [hcf, hni]
                exact ⟨newId, by simp [hni], hni⟩
          · injection hc with h
            rwa [← h]
    · intro r hr
      simp only [navStep] at hr
      split at hr
      · exact absurd hr (by simp)
      · split at hr
        · injection hr with h
          rwa [← h]
        · split at hr
          · exact absurd hr (by simp)
          · exact absurd hr (by simp)

/-- C10: whenever `navigate_and_select_folder` returns, the returned folder
id is truthy provided the initial parent folder id is truthy (and listed
subfolder ids are well formed); so the orchestrator's "No folder selected"
abort (main.py:296-298) can be reached only through a falsy configured
`DRIVE_FOLDER_ID`, never through a navigation choice. -/
theorem navRun_returns_truthy (listSub : Option String → List Folder)
    (createF : String → Option String → Option String)
    (hids : ∀ fid, ∀ f ∈ listSub fid, f.id ≠ "")
    (cur : Option String) (inputs : List NavInput) (r : Option String)
    (hcur : pyTruthy cur) (hrun : navRun listSub createF cur inputs = some r) :
    pyTruthy r := by
  induction inputs generalizing cur with
  | nil => exact absurd hrun (by simp [navRun])
  | cons i rest ih =>
    simp only [navRun] at hrun
    rcases hstep : navStep (listSub cur) createF cur i with c | ret
    · rw [hstep] at hrun
      exact ih _ ((navStep_preserves_truthy _ createF cur i (hids cur) hcur).1 c hstep)
        hrun
    · rw [hstep] at hrun
      injection hrun with h
      rw [← h]
      exact (navStep_preserves_truthy _ createF cur i (hids cur) hcur).2 ret hstep

/-- Witness for C10 at a concrete input: one listed child, "Upload here" is
choice 2; the run returns the (truthy) initial folder id. -/
theorem navRun_returns_truthy_witness :
    navRun (fun _ => [⟨"sub1", "Clips"⟩]) (fun _ _ => none) (some "root")
        [NavInput.num 2 ""] = some (some "root")
    ∧ pyTruthy (some "root") := by
  constructor
  · rfl
  · exact navRun_returns_truthy (fun _ => [⟨"sub1", "Clips"⟩]) (fun _ _ => none)
      (by
        intro fid f hf
        rw [List.mem_singleton] at hf
        rw [hf]
        decide)
      (some "root") [NavInput.num 2 ""] (some "root")
      ⟨"root", rfl, by decide⟩ rfl

/-- C7: both listing helpers turn any network/HTTP failure into the empty
sequence (the error is only printed to the console, main.py:38 and
main.py:52), so a failure is indistinguishable, in the returned value,
from a legitimately empty listing. -/
theorem listing_errors_yield_empty (sd : String) :
    (∀ e, get_mounted_media (.error e) = [])
    ∧ (∀ e, get_mounted_media (.error e) = get_mounted_media (.ok []))
    ∧ (∀ e, list_files_on_sd_card sd (.error e) = [])
    ∧ (∀ e, list_files_on_sd_card sd (.error e)
        = list_files_on_sd_card sd (.ok [])) :=
  ⟨fun _ => rfl, fun _ => rfl, fun _ => rfl, fun _ => rfl⟩

/-- One user interaction with the SD-card prompt (main.py:223-233): input
on which `int()` raises `ValueError`, or a parsed numeric choice. -/
inductive SelInput where
  | invalid : SelInput
  | num : Int → SelInput

/-- The `while True` selection loop of `select_sd_card` (main.py:223-233),
run on a finite input list: `some name` once a valid index is entered,
`none` if the inputs are exhausted without a valid choice. -/
def sdSelectLoop (mounts : List Volume) : List SelInput → Option String
  | [] => none
  | .invalid :: rest => sdSelectLoop mounts rest
  | .num n :: rest =>
    if h : 1 ≤ n ∧ n ≤ (mounts.length : Int) then
      some (mounts.get ⟨(n - 1).toNat, by omega⟩).name
    else sdSelectLoop mounts rest

/-- `select_sd_card` (main.py:210-233) over the listed mounts and a finite
user-input list: `some none` when no media is mounted (the early `return
None`), `some (some name)` when a valid index is chosen, `none` when the
inputs run out while the loop keeps re-prompting. -/
def select_sd_card (mounts : List Volume) (inputs : List SelInput) :
    Option (Option String) :=
  if mounts.isEmpty then some none
  else (sdSelectLoop mounts inputs).map some

/-- C8: for a non-empty mount list the prompt accepts exactly the indices
in `[1, len(mounts)]`: such a choice immediately returns the corresponding
volume's name, while any other numeric choice, and any non-numeric input,
leaves the loop re-prompting on the remaining inputs with no other
effect. -/
theorem select_sd_card_range (mounts : List Volume) (hm : mounts ≠ [])
    (n : Int) (rest : List SelInput) :
    ((1 ≤ n ∧ n ≤ (mounts.length : Int)) →
      select_sd_card mounts (.num n :: rest)
        = some ((mounts[(n - 1).toNat]?).map Volume.name))
    ∧ (¬(1 ≤ n ∧ n ≤ (mounts.length : Int)) →
      select_sd_card mounts (.num n :: rest) = select_sd_card mounts rest)
    ∧ select_sd_card mounts (.invalid :: rest) = select_sd_card mounts rest := by
  have hm2 : mounts.isEmpty = false := by
    cases mounts with
    | nil => exact absurd rfl hm
    | cons v vs => rfl
  refine ⟨?_, ?_, ?_⟩
  · intro hn
    have hlt : (n - 1).toNat < mounts.length := by omega
    simp only [select_sd_card, hm2, Bool.false_eq_true, if_false, sdSelectLoop,
      dif_pos hn]
    rw [List.getElem?_eq_getElem hlt]
    simp [List.get_eq_getElem]
  · intro hn
    simp only [select_sd_card, hm2, Bool.false_eq_true, if_false, sdSelectLoop,
      dif_neg hn]
  · simp only [select_sd_card, hm2, Bool.false_eq_true, if_false, sdSelectLoop]

/-- Witness for C8 at a concrete input: two mounted cards, a non-numeric
entry, an out-of-range entry, then index 2 — the loop rejects the first
two and returns the second card's name. -/
theorem select_sd_card_range_witness :
    select_sd_card [⟨"sd1"⟩, ⟨"sd2"⟩] [.invalid, .num 3, .num 2]
      = some (some "sd2") := by
  have h1 := (select_sd_card_range [⟨"sd1"⟩, ⟨"sd2"⟩] (by decide) 2
    [SelInput.num 3, SelInput.num 2]).2.2
  have h2 := (select_sd_card_range [⟨"sd1"⟩, ⟨"sd2"⟩] (by decide) 3
    [SelInput.num 2]).2.1 (by decide)
  have h3 := (select_sd_card_range [⟨"sd1"⟩, ⟨"sd2"⟩] (by decide) 2
    ([] : List SelInput)).1 (by decide)
  rw [h1, h2, h3]
  rfl

/-- Python `str.strip()` on a character list: drop whitespace from both
ends (as `int()` also does on its argument). -/
def pyStrip (l : List Char) : List Char :=
  ((l.dropWhile Char.isWhitespace).reverse.dropWhile Char.isWhitespace).reverse

/-- Decimal value of a list of digit characters. -/
def charsToNat (l : List Char) : Nat :=
  l.foldl (fun acc c => acc * 10 + (c.toNat - 48)) 0

/-- Python `int(s)` on a character list: strips whitespace, allows one
leading sign, then requires a non-empty run of decimal digits; `none`
models a raised `ValueError`. (Underscore digit grouping and non-ASCII
digits, which CPython also accepts, are not modelled.) -/
def pyIntChars (l : List Char) : Option Int :=
  let t := pyStrip l
  let neg := t.head? == some '-'
  let digits := if neg || (t.head? == some '+') then t.tail else t
  if digits.isEmpty then none
  else if digits.all Char.isDigit then
    some (if neg then -(charsToNat digits : Int) else (charsToNat digits : Int))
  else none

/-- Python `s.split(',')`: split at every comma, keeping empty pieces. -/
def splitOnComma : List Char → List (List Char)
  | [] => [[]]
  | c :: rest =>
    if c = ',' then [] :: splitOnComma rest
    else
      match splitOnComma rest with
      | [] => [[c]]
      | h :: t => (c :: h) :: t

/-- Python `s.lower()` (ASCII case mapping). -/
def pyLower (s : String) : String :=
  ⟨s.data.map Char.toLower⟩

/-- The comprehension `[int(i.strip()) for i in choice.split(',')]`
(main.py:254): all pieces must parse or the whole parse raises
`ValueError` (modelled as `none`). -/
def parseIndices (choice : String) : Option (List Int) :=
  (splitOnComma choice.data).mapM pyIntChars

/-- The comprehension `[files[i - 1] for i in indices if 1 <= i <= len(files)]`
(main.py:255): out-of-range indices are silently dropped. -/
def pickFiles (files : List RemoteFile) (indices : List Int) : List RemoteFile :=
  indices.filterMap (fun i =>
    if h : 1 ≤ i ∧ i ≤ (files.length : Int) then
      some (files.get ⟨(i - 1).toNat, by omega⟩)
    else none)

/-- `select_files_to_download` (main.py:235-263) over a finite user-input
list: `'all'` (case-insensitively) or the exact decimal string
`len(files)+1` selects the entire list; otherwise the comma-separated
indices are parsed, in-range ones are kept, and the loop re-prompts when
parsing fails or nothing in range was given. `none` models exhausting the
inputs while the loop keeps re-prompting. -/
def select_files_to_download (files : List RemoteFile) :
    List String → Option (List RemoteFile)
  | [] => none
  | choice :: rest =>
    if pyLower choice = "all" ∨ choice = toString (files.length + 1) then
      some files
    else
      match parseIndices choice with
      | none => select_files_to_download files rest
      | some indices =>
        if (pickFiles files indices).isEmpty then
          select_files_to_download files rest
        else some (pickFiles files indices)

/-- C9: for a non-empty file list, `select_files_to_download` only ever
returns a non-empty selection ("all" or the index `len(files)+1` select
everything; otherwise out-of-range indices are silently dropped and the
result is accepted as soon as one index was in range) — so the
orchestrator's "No files selected" abort (main.py:290-292) is unreachable
in any terminating run. -/
theorem select_files_nonempty_selection (files : List RemoteFile)
    (hf : files ≠ []) :
    (∀ inputs sel, select_files_to_download files inputs = some sel → sel ≠ [])
    ∧ (∀ choice rest, pyLower choice = "all" →
        select_files_to_download files (choice :: rest) = some files)
    ∧ (∀ rest, select_files_to_download files
        (toString (files.length + 1) :: rest) = some files)
    ∧ (∀ choice rest indices, pyLower choice ≠ "all" →
        choice ≠ toString (files.length + 1) →
        parseIndices choice = some indices → pickFiles files indices ≠ [] →
        select_files_to_download files (choice :: rest)
          = some (pickFiles files indices)) := by
  refine ⟨?_, ?_, ?_, ?_⟩
  · intro inputs
    induction inputs with
    | nil =>
      intro sel h
      exact absurd h (by simp [select_files_to_download])
    | cons choice rest ih =>
      intro sel h
      simp only [select_files_to_download] at h
      split at h
      · injection h with h2
        rw [← h2]
        exact hf
      · split at h
        · exact ih sel h
        · split at h
          · exact ih sel h
          · rename_i hemp
            injection h with h2
            rw [← h2]
            intro hnil
            exact hemp (by rw [hnil]; rfl)
  · intro choice rest hl
    simp only [select_files_to_download]
    rw [if_pos (Or.inl hl)]
  · intro rest
    simp [select_files_to_download]
  · intro choice rest indices hl hc hp hpick
    have hemp : (pickFiles files indices).isEmpty = false := by
      cases hpe : pickFiles files indices with
      | nil => exact absurd hpe hpick
      | cons a b => rfl
    simp only [select_files_to_download]
    rw [if_neg (not_or.mpr ⟨hl, hc⟩), hp]
    simp [hemp]

/-- Witness for C9 at a concrete input: two files, input `"0,2"` — index 0
is out of range and silently dropped, index 2 selects the second file, and
the returned selection is non-empty. -/
theorem select_files_nonempty_selection_witness :
    select_files_to_download
        [⟨"A.mp4", "file", some 1⟩, ⟨"B.mp4", "file", some 2⟩] ["0,2"]
      = some [⟨"B.mp4", "file", some 2⟩]
    ∧ ([⟨"B.mp4", "file", some 2⟩] : List RemoteFile) ≠ [] := by
  have hsel := (select_files_nonempty_selection
    [⟨"A.mp4", "file", some 1⟩, ⟨"B.mp4", "file", some 2⟩]
    (by decide)).2.2.2 "0,2" [] [0, 2] (by decide) (by decide) rfl (by decide)
  constructor
  · rw [hsel]
    rfl
  · exact (select_files_nonempty_selection
      [⟨"A.mp4", "file", some 1⟩, ⟨"B.mp4", "file", some 2⟩] (by decide)).1
      ["0,2"] [⟨"B.mp4", "file", some 2⟩] (by rw [hsel]; rfl)

/-- Witness for C2 at a concrete input: with one listed child, choice 2 is
"Upload here" and the iteration returns the current folder id unchanged. -/
theorem navStep_returns_only_upload_here_witness :
    navStep [⟨"f1", "A"⟩] (fun _ _ => none) (some "root") (.num 2 "")
      = .ret (some "root") :=
  (navStep_returns_only_upload_here [⟨"f1", "A"⟩] (fun _ _ => none)
    (some "root")).2 ""
